import Mathlib

/-!
Verification of the mimi-backend job-queue subsystem.

This file shallowly embeds the queue backends (`src/queue/inmemory_queue.rs`,
`src/queue/upstash_queue.rs`, `src/queue/redis_queue.rs`), the retry policy
(`src/worker/retry.rs`) and the error taxonomy (`src/error/mod.rs`) as
executable Lean definitions and proves properties of the embedding.

Modelling conventions:
- Rust `HashMap<String, V>` is modelled as an association list
  `List (String × V)` with lookup / replace-or-append insert / erase.
- `std::time::Duration` values are modelled as whole milliseconds (`Nat`):
  every duration in the retry module is built with `Duration::from_millis`
  and all arithmetic goes through `as_millis`.
- `f64` arithmetic in the retry module is modelled exactly over `ℚ`;
  the final `as u64` cast truncates toward zero and clamps negatives at 0,
  modelled as `Int.floor` followed by `Int.toNat`.
- Randomness (`rand::thread_rng().gen_range`) is modelled by passing the
  drawn value as an explicit parameter constrained to the drawn range.
- `async` methods hold a single mutex for their whole body, so the queue
  operations are modelled as pure state transformers; the only error path
  in the in-memory backend (mutex poisoning) has no counterpart in the
  single-threaded model, every other path returns `Ok`.
-/

/-- Association-list lookup, mirroring `HashMap::get`. -/
def lookupA {α : Type} (k : String) : List (String × α) → Option α
  | [] => none
  | (k2, v) :: rest => if k = k2 then some v else lookupA k rest

/-- Association-list insert with replace-or-append semantics, mirroring
`HashMap::insert` (and `entry(k).or_insert(v)` when the key is absent). -/
def insertA {α : Type} (k : String) (v : α) : List (String × α) → List (String × α)
  | [] => [(k, v)]
  | (k2, v2) :: rest => if k = k2 then (k2, v) :: rest else (k2, v2) :: insertA k v rest

/-- Association-list erase, mirroring `HashMap::remove`. -/
def eraseA {α : Type} (k : String) : List (String × α) → List (String × α)
  | [] => []
  | (k2, v2) :: rest => if k = k2 then rest else (k2, v2) :: eraseA k rest

/-- `JobPayload` from `src/queue/types.rs`: the data enqueued for one job.
`user_id : Uuid`, `created_at : DateTime` and `metadata : serde_json::Value`
are carried opaquely (the queue code never inspects them). -/
structure JobPayload where
  jobId : String
  userId : String
  question : String
  cardCount : Nat
  schemaVersion : String
  promptVersion : String
  dedupeKey : Option String
  traceId : Option String
  createdAt : Nat
  metadata : String
deriving DecidableEq, Repr

/-- `QueuedJob` from `src/queue/mod.rs`: a dequeued job handed to a consumer.
`claimed_at : DateTime<Utc>` is modelled as a `Nat` timestamp supplied by
the caller of `dequeue` in place of `chrono::Utc::now()`. -/
structure QueuedJob where
  jobId : String
  payload : JobPayload
  attempts : Nat
  claimedAt : Nat
deriving DecidableEq, Repr

/-- `QueueState` from `src/queue/inmemory_queue.rs`: the mutex-protected
state of the in-memory backend. `pending` is the FIFO `VecDeque`,
`processing` maps job_id to `(consumer_id, QueuedJob)`, `attempts` maps
job_id to its attempt counter. -/
structure QueueState where
  pending : List JobPayload
  processing : List (String × (String × QueuedJob))
  attempts : List (String × Nat)
deriving DecidableEq, Repr

namespace InMemoryQueue

/-- `InMemoryQueue::new` / `QueueState::default()`: all collections empty. -/
def init : QueueState := ⟨[], [], []⟩

/-- `InMemoryQueue::enqueue`: push the payload at the back of `pending` and
initialise the attempt counter with `entry(job_id).or_insert(0)` (which
keeps an existing counter unchanged). Returns the payload's own job id. -/
def enqueue (s : QueueState) (payload : JobPayload) : String × QueueState :=
  let attempts2 :=
    match lookupA payload.jobId s.attempts with
    | some _ => s.attempts
    | none => insertA payload.jobId 0 s.attempts
  (payload.jobId, { s with pending := s.pending ++ [payload], attempts := attempts2 })

/-- `InMemoryQueue::dequeue`: pop the front of `pending`; bump the attempt
counter with `entry(job_id).and_modify(|a| *a += 1).or_insert(1)` (new value
is the old value, defaulting to 0, plus one); build the `QueuedJob` and move
it into `processing` under the consumer id. -/
def dequeue (s : QueueState) (consumerId : String) (now : Nat) :
    Option QueuedJob × QueueState :=
  match s.pending with
  | [] => (none, s)
  | payload :: rest =>
      let jobId := payload.jobId
      let attemptCount := (lookupA jobId s.attempts).getD 0 + 1
      let job : QueuedJob := ⟨jobId, payload, attemptCount, now⟩
      (some job,
        { pending := rest,
          processing := insertA jobId (consumerId, job) s.processing,
          attempts := insertA jobId attemptCount s.attempts })

/-- `InMemoryQueue::ack`: if the job is in `processing`, remove it from
`processing` and `attempts` — in the source both branches of the
consumer-id comparison perform the same removal. An unknown job id is a
no-op. Every path returns `Ok(())`. -/
def ack (s : QueueState) (jobId consumerId : String) :
    Except String Unit × QueueState :=
  match lookupA jobId s.processing with
  | some (storedConsumer, _) =>
      if storedConsumer = consumerId then
        (Except.ok (), { s with processing := eraseA jobId s.processing,
                                attempts := eraseA jobId s.attempts })
      else
        (Except.ok (), { s with processing := eraseA jobId s.processing,
                                attempts := eraseA jobId s.attempts })
  | none => (Except.ok (), s)

/-- `InMemoryQueue::nack`: remove the job from `processing` and push its
payload back at the FRONT of `pending`; consumer-id mismatch and the
`reason` are only logged (`eprintln!`). Unknown ids are a no-op. Every
path returns `Ok(())`. -/
def nack (s : QueueState) (jobId : String) (_consumerId : String)
    (_reason : Option String) : Except String Unit × QueueState :=
  match lookupA jobId s.processing with
  | some (_, queuedJob) =>
      (Except.ok (), { s with pending := queuedJob.payload :: s.pending,
                              processing := eraseA jobId s.processing })
  | none => (Except.ok (), s)

/-- `InMemoryQueue::get_queue_length`: number of pending jobs only. -/
def getQueueLength (s : QueueState) : Nat := s.pending.length

end InMemoryQueue

-- sanity checks on tiny inputs (mirroring the unit tests in the source)
example : InMemoryQueue.getQueueLength InMemoryQueue.init = 0 := rfl

/-- Broker-side state for the stream backends (`UpstashQueue`,
`RedisQueue`). The client code in `src/queue/upstash_queue.rs` and
`src/queue/redis_queue.rs` issues XADD / XREADGROUP-with-id `>` / XLEN.
Modelled from the spec: the broker keeps an append-only list of entries;
a consumer-group read with id `>` delivers each entry to at most one
consumer, exactly once, in append order (delivered-but-unacknowledged
entries sit in the pending-entries list and are redelivered only through
reclaim commands, which neither client ever issues). `deliveredCount` is
the group's last-delivered position. -/
structure StreamState where
  entries : List JobPayload
  deliveredCount : Nat
deriving DecidableEq, Repr

namespace UpstashQueue

/-- A fresh stream after `XGROUP CREATE ... 0 MKSTREAM`. -/
def init : StreamState := ⟨[], 0⟩

/-- `UpstashQueue::enqueue` (identical in `RedisQueue`): XADD appends the
serialized payload as a new stream entry; the payload's job id is echoed. -/
def enqueue (s : StreamState) (payload : JobPayload) : String × StreamState :=
  (payload.jobId, { s with entries := s.entries ++ [payload] })

/-- `UpstashQueue::dequeue` (same shape in `RedisQueue`): XREADGROUP with
id `>` and COUNT 1 returns the next never-delivered entry, or nothing.
The client then builds a `QueuedJob` with `attempts` HARDCODED to 1
(`RedisQueue` carries the comment `TODO: Track actual retry count from
PEL` on that line) and `claimed_at = Utc::now()`. -/
def dequeue (s : StreamState) (_consumerId : String) (now : Nat) :
    Option QueuedJob × StreamState :=
  match s.entries.drop s.deliveredCount with
  | [] => (none, s)
  | payload :: _ =>
      (some ⟨payload.jobId, payload, 1, now⟩,
       { s with deliveredCount := s.deliveredCount + 1 })

/-- `UpstashQueue::ack` (identical in `RedisQueue`): prints a log line and
returns `Ok(())` without sending any command (`TODO: Implement proper
XACK with stream_id tracking`). The broker state is untouched. -/
def ack (s : StreamState) (_jobId _consumerId : String) :
    Except String Unit × StreamState :=
  (Except.ok (), s)

/-- `UpstashQueue::nack` (identical in `RedisQueue`): prints a log line and
returns `Ok(())` without sending any command (`TODO: Implement proper
retry logic`). The broker state is untouched. -/
def nack (s : StreamState) (_jobId _consumerId : String)
    (_reason : Option String) : Except String Unit × StreamState :=
  (Except.ok (), s)

/-- `UpstashQueue::get_queue_length` (identical in `RedisQueue`): XLEN,
the total number of stream entries (delivered or not — entries are never
deleted by this client). -/
def getQueueLength (s : StreamState) : Nat := s.entries.length

end UpstashQueue

/-- `RetryConfig` from `src/worker/retry.rs`, durations in whole
milliseconds, `backoff_multiplier : f64` as an exact rational. -/
structure RetryConfig where
  maxAttempts : Nat
  baseDelayMs : Nat
  maxDelayMs : Nat
  backoffMultiplier : ℚ
  jitter : Bool
deriving DecidableEq, Repr

/-- `RetryError` from `src/worker/retry.rs`. -/
inductive RetryError where
  | invalidConfig (msg : String)
  | maxAttemptsExceeded
deriving DecidableEq, Repr

namespace RetryPolicy

/-- `RetryPolicy::validate_config`: the four checks in source order. -/
def validateConfig (cfg : RetryConfig) : Except RetryError Unit :=
  if cfg.maxAttempts = 0 then
    Except.error (RetryError.invalidConfig ("max_attempts must be > 0"))
  else if cfg.baseDelayMs = 0 then
    Except.error (RetryError.invalidConfig ("base_delay must be > 0"))
  else if cfg.maxDelayMs ≤ cfg.baseDelayMs then
    Except.error (RetryError.invalidConfig ("max_delay must be > base_delay"))
  else if cfg.backoffMultiplier ≤ 1 then
    Except.error (RetryError.invalidConfig ("backoff_multiplier must be > 1.0"))
  else
    Except.ok ()

/-- `RetryPolicy::new`: validate, then wrap the config. -/
def new (cfg : RetryConfig) : Except RetryError RetryConfig :=
  match validateConfig cfg with
  | Except.ok _ => Except.ok cfg
  | Except.error e => Except.error e

/-- The `exponent as i32` cast inside `calculate_delay`: a `u32` value
reinterpreted as a two's-complement `i32` (wraps to a negative number for
values ≥ 2^31). -/
def u32AsI32 (n : Nat) : Int :=
  let m : Nat := n % 2 ^ 32
  if m < 2 ^ 31 then (m : Int) else (m : Int) - 2 ^ 32

/-- Body of `RetryPolicy::calculate_delay` up to the jitter branch:
`exponent = attempts.saturating_sub(1)` (truncated subtraction on `Nat`),
`multiplier = backoff_multiplier.powi(exponent as i32)`,
`delay_millis = base_delay.as_millis() as f64 * multiplier`,
`capped = delay_millis.min(max_delay.as_millis() as f64)`,
`Duration::from_millis(capped as u64)` (truncate toward zero, clamp at 0). -/
def calculateDelayCore (cfg : RetryConfig) (attempts : Nat) : Nat :=
  let exponent := attempts - 1
  let multiplier := cfg.backoffMultiplier ^ u32AsI32 exponent
  let delayMillis : ℚ := (cfg.baseDelayMs : ℚ) * multiplier
  let cappedDelayMillis : ℚ := min delayMillis (cfg.maxDelayMs : ℚ)
  (Int.floor cappedDelayMillis).toNat

/-- `RetryPolicy::add_jitter`: the caller draws
`jittered_millis = gen_range(0.0..=delay.as_millis() as f64)` (passed here
as `draw`); `min_delay = (base_delay.as_millis() as f64 * 0.25).max(1.0)`;
the result is `Duration::from_millis(jittered.max(min_delay) as u64)`. -/
def addJitter (cfg : RetryConfig) (draw : ℚ) : Nat :=
  let minDelay : ℚ := max ((cfg.baseDelayMs : ℚ) * (1 / 4)) 1
  let finalDelay := max draw minDelay
  (Int.floor finalDelay).toNat

/-- `RetryPolicy::calculate_delay`: exponential backoff capped at
`max_delay`, then jitter when enabled (`draw` is the random value). -/
def calculateDelay (cfg : RetryConfig) (attempts : Nat) (draw : ℚ) : Nat :=
  let delay := calculateDelayCore cfg attempts
  if cfg.jitter then addJitter cfg draw else delay

/-- `RetryPolicy::should_retry`: `attempts < max_attempts` (the error
argument is ignored by the source). -/
def shouldRetry (cfg : RetryConfig) (attempts : Nat) : Bool :=
  attempts < cfg.maxAttempts

/-- `RetryPolicy::next_attempt_delay`: `Some(calculate_delay(attempts+1))`
when `should_retry(job.attempts)`, else `None`. -/
def nextAttemptDelay (cfg : RetryConfig) (job : QueuedJob) (draw : ℚ) :
    Option Nat :=
  if shouldRetry cfg job.attempts then
    some (calculateDelay cfg (job.attempts + 1) draw)
  else
    none

end RetryPolicy

/-- `QueueError` from `src/error/mod.rs`. -/
inductive QueueError where
  | connectionFailed (reason : String)
  | networkError (reason : String)
  | timeoutError (reason : String)
  | enqueueFailed (payloadId : String) (reason : String)
  | dequeueFailed (reason : String)
  | ackFailed (jobId : String) (reason : String)
  | nackFailed (jobId : String) (reason : String)
  | queueFull (reason : String)
  | invalidPayload (reason : String)
  | internalError (reason : String)
deriving DecidableEq, Repr

/-- `<QueueError as ErrorExt>::user_message`: one fixed sentence per group
of variants; no wrapped field is interpolated. -/
def QueueError.userMessage : QueueError → String
  | QueueError.connectionFailed _ | QueueError.networkError _ =>
      "Service temporarily unavailable. Please try again in a few moments."
  | QueueError.timeoutError _ =>
      "Request timed out. Please try again."
  | QueueError.enqueueFailed _ _ | QueueError.queueFull _ =>
      "Service is experiencing high demand. Please try again later."
  | QueueError.dequeueFailed _ =>
      "Unable to process request at this time. Please try again."
  | QueueError.ackFailed _ _ | QueueError.nackFailed _ _ =>
      "Job processing encountered an issue. Please contact support if this persists."
  | QueueError.invalidPayload _ =>
      "Invalid request format. Please check your input and try again."
  | QueueError.internalError _ =>
      "An unexpected error occurred. Please try again or contact support."

/-- `WorkerError` from `src/error/mod.rs` (durations in ms). -/
inductive WorkerError where
  | jobProcessingFailed (jobId : String) (attempts : Nat) (reason : String)
  | jobTimeout (jobId : String) (timeoutMs : Nat)
  | retryableError (jobId : String) (attempts : Nat) (nextRetryInMs : Nat)
      (reason : String)
  | maxRetriesExceeded (jobId : String) (totalAttempts : Nat)
  | invalidJobData (jobId : String) (validationErrors : List String)
  | internalError (reason : String)
deriving DecidableEq, Repr

/-- `<WorkerError as ErrorExt>::user_message`: fixed sentences, except that
`JobProcessingFailed` with `attempts > 1` interpolates the attempts count
(`format!("... Attempt {} of {}. ...", attempts, 3)`). -/
def WorkerError.userMessage : WorkerError → String
  | WorkerError.jobProcessingFailed _ attempts _ =>
      if attempts > 1 then
        "Job processing is taking longer than expected. Attempt " ++
          toString attempts ++ " of 3. Please be patient."
      else
        "Your request is being processed. This may take a few moments."
  | WorkerError.jobTimeout _ _ =>
      "Request processing timed out. Please try again with a simpler query."
  | WorkerError.retryableError _ _ _ _ =>
      "Your request is still being processed. Please check back in a few moments."
  | WorkerError.maxRetriesExceeded _ _ =>
      "Request processing failed after multiple attempts. Please try again later."
  | WorkerError.invalidJobData _ _ =>
      "Invalid request format. Please check your input and try again."
  | WorkerError.internalError _ =>
      "An unexpected error occurred during processing. Please try again."

/-- The variant of a `QueueError`, forgetting every wrapped field: the
equivalence classes over which C9 states `user_message` is constant. -/
inductive QueueErrorShape where
  | connectionFailed | networkError | timeoutError | enqueueFailed
  | dequeueFailed | ackFailed | nackFailed | queueFull | invalidPayload
  | internalError
deriving DecidableEq, Repr

/-- Project a `QueueError` to its variant. -/
def QueueError.shape : QueueError → QueueErrorShape
  | QueueError.connectionFailed _ => QueueErrorShape.connectionFailed
  | QueueError.networkError _ => QueueErrorShape.networkError
  | QueueError.timeoutError _ => QueueErrorShape.timeoutError
  | QueueError.enqueueFailed _ _ => QueueErrorShape.enqueueFailed
  | QueueError.dequeueFailed _ => QueueErrorShape.dequeueFailed
  | QueueError.ackFailed _ _ => QueueErrorShape.ackFailed
  | QueueError.nackFailed _ _ => QueueErrorShape.nackFailed
  | QueueError.queueFull _ => QueueErrorShape.queueFull
  | QueueError.invalidPayload _ => QueueErrorShape.invalidPayload
  | QueueError.internalError _ => QueueErrorShape.internalError

/-- The variant of a `WorkerError`, forgetting every wrapped field except
the `attempts` count of `JobProcessingFailed` (which `user_message`
legitimately depends on). -/
inductive WorkerErrorShape where
  | jobProcessingFailed (attempts : Nat)
  | jobTimeout | retryableError | maxRetriesExceeded | invalidJobData
  | internalError
deriving DecidableEq, Repr

/-- Project a `WorkerError` to its variant (keeping only `attempts` of
`JobProcessingFailed`). -/
def WorkerError.shape : WorkerError → WorkerErrorShape
  | WorkerError.jobProcessingFailed _ attempts _ =>
      WorkerErrorShape.jobProcessingFailed attempts
  | WorkerError.jobTimeout _ _ => WorkerErrorShape.jobTimeout
  | WorkerError.retryableError _ _ _ _ => WorkerErrorShape.retryableError
  | WorkerError.maxRetriesExceeded _ _ => WorkerErrorShape.maxRetriesExceeded
  | WorkerError.invalidJobData _ _ => WorkerErrorShape.invalidJobData
  | WorkerError.internalError _ => WorkerErrorShape.internalError

/-- The `user_message` each `QueueError` variant produces (the match arms of
the source, indexed by variant). -/
def queueMessageOfShape : QueueErrorShape → String
  | QueueErrorShape.connectionFailed | QueueErrorShape.networkError =>
      "Service temporarily unavailable. Please try again in a few moments."
  | QueueErrorShape.timeoutError =>
      "Request timed out. Please try again."
  | QueueErrorShape.enqueueFailed | QueueErrorShape.queueFull =>
      "Service is experiencing high demand. Please try again later."
  | QueueErrorShape.dequeueFailed =>
      "Unable to process request at this time. Please try again."
  | QueueErrorShape.ackFailed | QueueErrorShape.nackFailed =>
      "Job processing encountered an issue. Please contact support if this persists."
  | QueueErrorShape.invalidPayload =>
      "Invalid request format. Please check your input and try again."
  | QueueErrorShape.internalError =>
      "An unexpected error occurred. Please try again or contact support."

/-- The `user_message` each `WorkerError` variant produces. -/
def workerMessageOfShape : WorkerErrorShape → String
  | WorkerErrorShape.jobProcessingFailed attempts =>
      if attempts > 1 then
        "Job processing is taking longer than expected. Attempt " ++
          toString attempts ++ " of 3. Please be patient."
      else
        "Your request is being processed. This may take a few moments."
  | WorkerErrorShape.jobTimeout =>
      "Request processing timed out. Please try again with a simpler query."
  | WorkerErrorShape.retryableError =>
      "Your request is still being processed. Please check back in a few moments."
  | WorkerErrorShape.maxRetriesExceeded =>
      "Request processing failed after multiple attempts. Please try again later."
  | WorkerErrorShape.invalidJobData =>
      "Invalid request format. Please check your input and try again."
  | WorkerErrorShape.internalError =>
      "An unexpected error occurred during processing. Please try again."

deriving instance DecidableEq for Except

/-- A `QueueState` whose maps satisfy the `HashMap` key-uniqueness
invariant. Every state reachable from `InMemoryQueue.init` satisfies it;
it is needed because the association-list model can represent duplicate
keys that a `HashMap` cannot. -/
def WFState (s : QueueState) : Prop :=
  (s.processing.map Prod.fst).Nodup ∧ (s.attempts.map Prod.fst).Nodup

instance (s : QueueState) : Decidable (WFState s) := by
  unfold WFState; infer_instance

/-- Enqueue a list of payloads left to right. -/
def enqueueAll (s : QueueState) (ps : List JobPayload) : QueueState :=
  ps.foldl (fun st p => (InMemoryQueue.enqueue st p).2) s

/-- Dequeue `n` times in a row, collecting the returned jobs in order
(stopping early if the queue empties). -/
def drain (consumerId : String) (now : Nat) :
    QueueState → Nat → List QueuedJob × QueueState
  | s, 0 => ([], s)
  | s, n + 1 =>
      match InMemoryQueue.dequeue s consumerId now with
      | (some job, s2) =>
          let rest := drain consumerId now s2 n
          (job :: rest.1, rest.2)
      | (none, s2) => ([], s2)

/-- The config used by the spec's retry-backoff acceptance property:
`base_delay=100ms, multiplier=2.0, max_delay=5000ms`, jitter off. -/
def cfg100 : RetryConfig := ⟨5, 100, 5000, 2, false⟩

/-- A valid jittered config whose `base_delay/4 = 1.5ms` is not a whole
number of milliseconds. -/
def cfg6 : RetryConfig := ⟨3, 6, 100, 2, true⟩

/-- `RetryConfig::default()`: 3 attempts, 1s base, 30s max, 2.0, jitter. -/
def cfgDefault : RetryConfig := ⟨3, 1000, 30000, 2, true⟩

/-- A concrete payload (same shape as the source's test fixtures). -/
def samplePayload : JobPayload :=
  { jobId := "job-1", userId := "user-1", question := "q", cardCount := 3,
    schemaVersion := "1", promptVersion := "v2025-11-20-a", dedupeKey := none,
    traceId := none, createdAt := 0, metadata := "" }

/-- A second payload with a distinct job id. -/
def samplePayload2 : JobPayload :=
  { samplePayload with jobId := "job-2", question := "q2" }

/-- A concrete dequeued job with one delivery attempt. -/
def sampleJob (attempts : Nat) : QueuedJob :=
  ⟨"job-1", samplePayload, attempts, 0⟩

/-! ## Helper lemmas -/

theorem lookupA_eq_none_iff {α : Type} (k : String) (l : List (String × α)) :
    lookupA k l = none ↔ k ∉ l.map Prod.fst := by
  induction l with
  | nil => simp [lookupA]
  | cons hd tl ih =>
      obtain ⟨k2, v⟩ := hd
      by_cases h : k = k2 <;> simp [lookupA, h, ih]

theorem lookupA_eraseA_self {α : Type} (k : String) (l : List (String × α))
    (h : (l.map Prod.fst).Nodup) : lookupA k (eraseA k l) = none := by
  induction l with
  | nil => simp [eraseA, lookupA]
  | cons hd tl ih =>
      obtain ⟨k2, v⟩ := hd
      simp only [List.map_cons, List.nodup_cons] at h
      by_cases hk : k = k2
      · subst hk
        simpa [eraseA, lookupA_eq_none_iff] using h.1
      · simp [eraseA, hk, lookupA, ih h.2]

theorem enqueueAll_pending (ps : List JobPayload) :
    ∀ s : QueueState, (enqueueAll s ps).pending = s.pending ++ ps := by
  induction ps with
  | nil => intro s; simp [enqueueAll]
  | cons p rest ih =>
      intro s
      have h1 : enqueueAll s (p :: rest) =
          enqueueAll ((InMemoryQueue.enqueue s p).2) rest := rfl
      rw [h1, ih]
      show ((InMemoryQueue.enqueue s p).2).pending ++ rest = s.pending ++ p :: rest
      simp [InMemoryQueue.enqueue]

theorem drain_spec (c : String) (now : Nat) :
    ∀ (n : Nat) (s : QueueState), s.pending.length = n →
      (drain c now s n).1.map QueuedJob.payload = s.pending ∧
      (drain c now s n).1.map QueuedJob.jobId = s.pending.map JobPayload.jobId := by
  intro n
  induction n with
  | zero =>
      intro s h
      rw [List.length_eq_zero] at h
      simp [drain, h]
  | succ n ih =>
      intro s h
      obtain ⟨pend, proc, att⟩ := s
      cases pend with
      | nil => simp at h
      | cons p rest =>
          simp only [List.length_cons, Nat.succ.injEq] at h
          have hd := ih ⟨rest, insertA p.jobId (c,
              ⟨p.jobId, p, (lookupA p.jobId att).getD 0 + 1, now⟩) proc,
            insertA p.jobId ((lookupA p.jobId att).getD 0 + 1) att⟩ h
          simp only [drain, InMemoryQueue.dequeue, List.map_cons]
          exact ⟨by rw [hd.1], by rw [hd.2]⟩

/-! ## Claim theorems: queue backends -/

/-- C1. The spec requires nack to make the job visible again for a future
dequeue on every backend. The in-memory backend satisfies this (first
conjunct block, for an arbitrary payload, consumer and reason), but the
stream backends' `nack` is a logging no-op: after enqueue/dequeue/nack of
a single job, the broker state is unchanged by nack, XLEN still reports 1,
and the next XREADGROUP-with-`>` dequeue returns nothing — the job is
never redelivered. -/
theorem C1_nack_requeues_inmemory_but_not_stream :
    (∀ (p : JobPayload) (c c2 : String) (reason : Option String) (t t2 : Nat),
      let s1 := (InMemoryQueue.enqueue InMemoryQueue.init p).2
      let r2 := InMemoryQueue.dequeue s1 c t
      let n3 := InMemoryQueue.nack r2.2 p.jobId c reason
      n3.1 = Except.ok () ∧
      InMemoryQueue.getQueueLength n3.2 = 1 ∧
      ((InMemoryQueue.dequeue n3.2 c2 t2).1.map QueuedJob.jobId = some p.jobId)) ∧
    ((let s1 := (UpstashQueue.enqueue UpstashQueue.init samplePayload).2
      let r2 := UpstashQueue.dequeue s1 "w1" 5
      let n3 := UpstashQueue.nack r2.2 "job-1" "w1" (some "boom")
      (r2.1.map QueuedJob.jobId = some "job-1") ∧
      n3.1 = Except.ok () ∧ n3.2 = r2.2 ∧
      UpstashQueue.getQueueLength n3.2 = 1 ∧
      (UpstashQueue.dequeue n3.2 "w1" 9).1 = none)) := by
  constructor
  · intro p c c2 reason t t2
    simp [InMemoryQueue.enqueue, InMemoryQueue.dequeue, InMemoryQueue.nack,
      InMemoryQueue.getQueueLength, InMemoryQueue.init, lookupA, insertA, eraseA]
  · decide

/-- C2. The spec requires `attempts` on a dequeued job to count deliveries
(1 on the first dequeue, incremented on each re-dequeue). The in-memory
backend does this (first block: 1 on first dequeue, 2 after a nack); the
stream backends hardcode `attempts: 1` on every delivery (`RedisQueue`
carries `TODO: Track actual retry count from PEL`), so a job delivered a
second time still reports `attempts = 1` (second block). -/
theorem C2_attempts_counted_inmemory_but_hardcoded_on_stream :
    ((let s1 := (InMemoryQueue.enqueue InMemoryQueue.init samplePayload).2
      let r2 := InMemoryQueue.dequeue s1 "w1" 5
      let s3 := (InMemoryQueue.nack r2.2 "job-1" "w1" (some "boom")).2
      let r4 := InMemoryQueue.dequeue s3 "w1" 9
      (r2.1.map QueuedJob.attempts = some 1) ∧
      (r4.1.map QueuedJob.attempts = some 2) ∧
      (r4.1.map QueuedJob.jobId = some "job-1")) ∧
     (let s1 := (UpstashQueue.enqueue UpstashQueue.init samplePayload).2
      let s2 := (UpstashQueue.enqueue s1 samplePayload).2
      let r3 := UpstashQueue.dequeue s2 "w1" 5
      let r4 := UpstashQueue.dequeue r3.2 "w1" 6
      (r3.1.map QueuedJob.attempts = some 1) ∧
      (r3.1.map QueuedJob.jobId = some "job-1") ∧
      (r4.1.map QueuedJob.attempts = some 1) ∧
      (r4.1.map QueuedJob.jobId = some "job-1"))) := by
  decide

/-- C4. FIFO: enqueueing `ps` in order into a fresh in-memory queue and
then dequeueing `ps.length` times returns jobs whose payloads (and job
ids) are exactly `ps` in enqueue order. -/
theorem C4_inmemory_fifo (ps : List JobPayload) (c : String) (now : Nat) :
    ((drain c now (enqueueAll InMemoryQueue.init ps) ps.length).1).map
        QueuedJob.payload = ps ∧
    ((drain c now (enqueueAll InMemoryQueue.init ps) ps.length).1).map
        QueuedJob.jobId = ps.map JobPayload.jobId := by
  have hp : (enqueueAll InMemoryQueue.init ps).pending = ps := by
    simpa [InMemoryQueue.init] using enqueueAll_pending ps InMemoryQueue.init
  have hlen : (enqueueAll InMemoryQueue.init ps).pending.length = ps.length := by
    rw [hp]
  have h := drain_spec c now ps.length (enqueueAll InMemoryQueue.init ps) hlen
  rw [hp] at h
  exact h

/-- C5. Ack on the in-memory backend is idempotent: it always returns
`Ok`, never touches the pending queue (so it can never double-decrement
`get_queue_length`), is a strict no-op on an unknown or already-acked job
id, and acking a second time yields `Ok` and the same state. -/
theorem C5_ack_idempotent (s : QueueState) (jobId c : String) (hwf : WFState s) :
    (InMemoryQueue.ack s jobId c).1 = Except.ok () ∧
    InMemoryQueue.getQueueLength (InMemoryQueue.ack s jobId c).2 =
      InMemoryQueue.getQueueLength s ∧
    (lookupA jobId s.processing = none → (InMemoryQueue.ack s jobId c).2 = s) ∧
    InMemoryQueue.ack (InMemoryQueue.ack s jobId c).2 jobId c =
      (Except.ok (), (InMemoryQueue.ack s jobId c).2) := by
  unfold InMemoryQueue.ack
  cases h : lookupA jobId s.processing with
  | none => simp [h, InMemoryQueue.getQueueLength]
  | some pr =>
      obtain ⟨sc, job⟩ := pr
      have hnone : lookupA jobId (eraseA jobId s.processing) = none :=
        lookupA_eraseA_self jobId s.processing hwf.1
      by_cases hc : sc = c <;>
        simp [h, hc, hnone, InMemoryQueue.getQueueLength]

/-- C5 witness: a state holding `job-1` in processing; acking the unknown
id `job-2` is an `Ok` no-op, and double-acking `job-1` returns `Ok` with
the state of the first ack. -/
theorem C5_ack_idempotent_witness :
    (let sW := (InMemoryQueue.dequeue
        ((InMemoryQueue.enqueue InMemoryQueue.init samplePayload).2) "w1" 0).2
     (InMemoryQueue.ack sW "job-2" "w1").1 = Except.ok () ∧
     (InMemoryQueue.ack sW "job-2" "w1").2 = sW ∧
     InMemoryQueue.ack (InMemoryQueue.ack sW "job-1" "w1").2 "job-1" "w1" =
       (Except.ok (), (InMemoryQueue.ack sW "job-1" "w1").2)) := by
  intro sW
  have h2 := C5_ack_idempotent sW "job-2" "w1" (by decide)
  have h1 := C5_ack_idempotent sW "job-1" "w1" (by decide)
  exact ⟨h2.1, h2.2.2.1 (by decide), h1.2.2.2⟩

/-- C10. In-memory ack removes the job from the processing map and clears
its attempt counter regardless of which consumer id acks: for any stored
consumer and any (possibly different) acking consumer, ack returns `Ok`
and the resulting state is exactly the original with the job id erased
from both maps. -/
theorem C10_ack_ignores_consumer_id (s : QueueState)
    (jobId storedC actualC : String) (job : QueuedJob) (hwf : WFState s)
    (h : lookupA jobId s.processing = some (storedC, job)) :
    (InMemoryQueue.ack s jobId actualC).1 = Except.ok () ∧
    (InMemoryQueue.ack s jobId actualC).2 =
      { s with processing := eraseA jobId s.processing,
               attempts := eraseA jobId s.attempts } ∧
    lookupA jobId ((InMemoryQueue.ack s jobId actualC).2).processing = none ∧
    lookupA jobId ((InMemoryQueue.ack s jobId actualC).2).attempts = none := by
  have hp : lookupA jobId (eraseA jobId s.processing) = none :=
    lookupA_eraseA_self jobId s.processing hwf.1
  have ha : lookupA jobId (eraseA jobId s.attempts) = none :=
    lookupA_eraseA_self jobId s.attempts hwf.2
  unfold InMemoryQueue.ack
  by_cases hc : storedC = actualC <;> simp [h, hc, hp, ha]

/-- C10 witness: `job-1` was dequeued by `w1`; consumer `w2` acks it and
the job is removed from both maps anyway. -/
theorem C10_ack_ignores_consumer_id_witness :
    (let sW := (InMemoryQueue.dequeue
        ((InMemoryQueue.enqueue InMemoryQueue.init samplePayload).2) "w1" 0).2
     (InMemoryQueue.ack sW "job-1" "w2").1 = Except.ok () ∧
     lookupA "job-1" ((InMemoryQueue.ack sW "job-1" "w2").2).processing = none ∧
     lookupA "job-1" ((InMemoryQueue.ack sW "job-1" "w2").2).attempts = none) := by
  intro sW
  have h := C10_ack_ignores_consumer_id sW "job-1" "w1" "w2"
    ⟨"job-1", samplePayload, 1, 0⟩ (by decide) (by decide)
  exact ⟨h.1, h.2.2.1, h.2.2.2⟩

/-! ## Claim theorems: retry policy -/

theorem calculateDelayCore_eq_floor (cfg : RetryConfig) (n : Nat) :
    RetryPolicy.calculateDelayCore cfg n =
      Nat.floor (min ((cfg.baseDelayMs : ℚ) *
          cfg.backoffMultiplier ^ RetryPolicy.u32AsI32 (n - 1))
        ((cfg.maxDelayMs : ℚ))) := by
  simp only [RetryPolicy.calculateDelayCore]
  rw [Int.floor_toNat]

theorem u32AsI32_of_lt (n : Nat) (h : n < 2 ^ 31) :
    RetryPolicy.u32AsI32 n = (n : Int) := by
  have h32 : n % 2 ^ 32 = n := Nat.mod_eq_of_lt (lt_trans h (by norm_num))
  simp only [RetryPolicy.u32AsI32]
  rw [h32, if_pos h]

theorem floor_min_natCast (x : ℚ) (m : Nat) :
    Nat.floor (min x (m : ℚ)) = min m (Nat.floor x) := by
  rcases le_total x ((m : ℚ)) with hx | hx
  · rw [min_eq_left hx]
    have hle : Nat.floor x ≤ m := by
      have := Nat.floor_mono hx
      simpa using this
    exact (min_eq_right hle).symm
  · rw [min_eq_right hx]
    have hle : m ≤ Nat.floor x := Nat.le_floor hx
    simp [min_eq_left hle]

/-- C3 (amended): with jitter disabled, for every validly constructed
policy and attempt number `n` with `1 ≤ n` and `n - 1 < 2^31` (so the
`u32 → i32` cast of the exponent does not wrap), `calculate_delay(n)` is
`min(max_delay, base_delay * multiplier^(n-1))` truncated to whole
milliseconds; for the spec's config attempts 1..5 give exactly
100, 200, 400, 800, 1600 ms, and any in-range attempt whose exponential
value exceeds `max_delay` gives exactly `max_delay`. -/
theorem C3_backoff_formula :
    (∀ (cfg : RetryConfig) (draw : ℚ) (n : Nat),
      RetryPolicy.validateConfig cfg = Except.ok () → cfg.jitter = false →
      1 ≤ n → n - 1 < 2 ^ 31 →
      RetryPolicy.calculateDelay cfg n draw =
        min cfg.maxDelayMs
          (Nat.floor ((cfg.baseDelayMs : ℚ) *
            cfg.backoffMultiplier ^ (n - 1)))) ∧
    (RetryPolicy.calculateDelay cfg100 1 0 = 100 ∧
     RetryPolicy.calculateDelay cfg100 2 0 = 200 ∧
     RetryPolicy.calculateDelay cfg100 3 0 = 400 ∧
     RetryPolicy.calculateDelay cfg100 4 0 = 800 ∧
     RetryPolicy.calculateDelay cfg100 5 0 = 1600) ∧
    (∀ n : Nat, 1 ≤ n → n - 1 < 2 ^ 31 →
      (cfg100.maxDelayMs : ℚ) <
        (cfg100.baseDelayMs : ℚ) * cfg100.backoffMultiplier ^ (n - 1) →
      RetryPolicy.calculateDelay cfg100 n 0 = cfg100.maxDelayMs) := by
  have hmain : ∀ (cfg : RetryConfig) (draw : ℚ) (n : Nat),
      cfg.jitter = false → n - 1 < 2 ^ 31 →
      RetryPolicy.calculateDelay cfg n draw =
        min cfg.maxDelayMs
          (Nat.floor ((cfg.baseDelayMs : ℚ) *
            cfg.backoffMultiplier ^ (n - 1))) := by
    intro cfg draw n hjit h31
    have h1 : RetryPolicy.calculateDelay cfg n draw =
        RetryPolicy.calculateDelayCore cfg n := by
      simp [RetryPolicy.calculateDelay, hjit]
    rw [h1, calculateDelayCore_eq_floor, u32AsI32_of_lt _ h31, zpow_natCast,
      floor_min_natCast]
  refine ⟨fun cfg draw n hval hjit h1 h31 => hmain cfg draw n hjit h31,
    ?_, ?_⟩
  · refine ⟨?_, ?_, ?_, ?_, ?_⟩ <;>
      · rw [hmain cfg100 0 _ rfl (by norm_num)]
        norm_num [cfg100]
  · intro n h1 h31 hbig
    rw [hmain cfg100 0 n rfl h31]
    have hle : cfg100.maxDelayMs ≤
        Nat.floor ((cfg100.baseDelayMs : ℚ) *
          cfg100.backoffMultiplier ^ (n - 1)) :=
      Nat.le_floor (le_of_lt hbig)
    exact min_eq_left hle

/-- C3 witness: the formula instantiated at attempt 3 of the spec's
config, whose value is 400 ms. -/
theorem C3_backoff_formula_witness :
    RetryPolicy.calculateDelay cfg100 3 0 =
      min cfg100.maxDelayMs
        (Nat.floor ((cfg100.baseDelayMs : ℚ) *
          cfg100.backoffMultiplier ^ (3 - 1))) ∧
    RetryPolicy.calculateDelay cfg100 3 0 = 400 := by
  refine ⟨C3_backoff_formula.1 cfg100 0 3 (by decide) rfl (by norm_num)
    (by norm_num), ?_⟩
  norm_num [RetryPolicy.calculateDelay, RetryPolicy.calculateDelayCore,
    RetryPolicy.u32AsI32, cfg100]
  rfl

/-- C3 counterexample: at attempt number `2^31 + 1` (a valid `u32`), the
exponent `2^31` wraps to `-2^31` in the `as i32` cast, `powi` underflows,
and `calculate_delay` returns 0 ms even though the mathematical
exponential value `100 * 2^(2^31)` far exceeds `max_delay = 5000`, which
the claim says would be returned exactly. -/
theorem C3_overflow_counterexample :
    RetryPolicy.calculateDelay cfg100 (2 ^ 31 + 1) 0 = 0 ∧
    cfg100.maxDelayMs = 5000 ∧
    (cfg100.maxDelayMs : ℚ) <
      (cfg100.baseDelayMs : ℚ) *
        cfg100.backoffMultiplier ^ ((2 ^ 31 + 1 : Nat) - 1) := by
  have hpowK : ∀ k : Nat, 7 ≤ k → (100 : ℚ) < 2 ^ k := by
    intro k hk
    calc (100 : ℚ) < 2 ^ (7 : ℕ) := by norm_num
    _ ≤ 2 ^ k := pow_le_pow_right₀ one_le_two hk
  have hexp : (2 ^ 31 + 1 : Nat) - 1 = 2 ^ 31 := by norm_num
  have hKpos : (0 : ℚ) < 2 ^ (2 ^ 31 : ℕ) := pow_pos (by norm_num) _
  refine ⟨?_, rfl, ?_⟩
  · have h1 : RetryPolicy.calculateDelay cfg100 (2 ^ 31 + 1) 0 =
        RetryPolicy.calculateDelayCore cfg100 (2 ^ 31 + 1) := by
      simp [RetryPolicy.calculateDelay, cfg100]
    rw [h1, calculateDelayCore_eq_floor, hexp]
    have hcast : RetryPolicy.u32AsI32 (2 ^ 31) = -((2 ^ 31 : Nat) : Int) := by
      decide
    rw [hcast]
    have hmult : cfg100.backoffMultiplier ^ (-((2 ^ 31 : Nat) : Int)) =
        ((2 : ℚ) ^ (2 ^ 31 : ℕ))⁻¹ := by
      show (2 : ℚ) ^ (-((2 ^ 31 : Nat) : Int)) = ((2 : ℚ) ^ (2 ^ 31 : ℕ))⁻¹
      rw [zpow_neg, zpow_natCast]
    rw [hmult]
    have hx1 : (cfg100.baseDelayMs : ℚ) * ((2 : ℚ) ^ (2 ^ 31 : ℕ))⁻¹ < 1 := by
      show (((100 : ℕ) : ℚ)) * ((2 : ℚ) ^ (2 ^ 31 : ℕ))⁻¹ < 1
      rw [← div_eq_mul_inv, div_lt_one hKpos]
      calc ((100 : ℕ) : ℚ) = (100 : ℚ) := by norm_num
      _ < _ := hpowK _ (by norm_num)
    have hmin : min ((cfg100.baseDelayMs : ℚ) * ((2 : ℚ) ^ (2 ^ 31 : ℕ))⁻¹)
        ((cfg100.maxDelayMs : ℚ)) =
        (cfg100.baseDelayMs : ℚ) * ((2 : ℚ) ^ (2 ^ 31 : ℕ))⁻¹ := by
      apply min_eq_left
      calc (cfg100.baseDelayMs : ℚ) * ((2 : ℚ) ^ (2 ^ 31 : ℕ))⁻¹ ≤ 1 :=
        le_of_lt hx1
      _ ≤ (cfg100.maxDelayMs : ℚ) := by
          show (1 : ℚ) ≤ ((5000 : ℕ) : ℚ)
          norm_num
    rw [hmin]
    exact Nat.floor_eq_zero.mpr hx1
  · rw [hexp]
    show ((5000 : ℕ) : ℚ) < ((100 : ℕ) : ℚ) * (2 : ℚ) ^ (2 ^ 31 : ℕ)
    have h13 : (2 : ℚ) ^ (13 : ℕ) ≤ (2 : ℚ) ^ (2 ^ 31 : ℕ) :=
      pow_le_pow_right₀ one_le_two (by norm_num)
    calc ((5000 : ℕ) : ℚ) < 100 * 2 ^ (13 : ℕ) := by norm_num
    _ ≤ ((100 : ℕ) : ℚ) * (2 : ℚ) ^ (2 ^ 31 : ℕ) := by
        have h100 : ((100 : ℕ) : ℚ) = (100 : ℚ) := by norm_num
        rw [h100]
        exact mul_le_mul_of_nonneg_left h13 (by norm_num)

/-- C6. For a validly constructed policy, `should_retry(attempts)` holds
exactly when `attempts < max_attempts`, and `next_attempt_delay(job)` is
`Some(calculate_delay(job.attempts + 1))` when retryable and `None` once
the attempt budget is exhausted. -/
theorem C6_should_retry_next_delay (cfg : RetryConfig)
    (_hval : RetryPolicy.validateConfig cfg = Except.ok ()) :
    (∀ a : Nat, RetryPolicy.shouldRetry cfg a = true ↔ a < cfg.maxAttempts) ∧
    (∀ (job : QueuedJob) (draw : ℚ), job.attempts < cfg.maxAttempts →
      RetryPolicy.nextAttemptDelay cfg job draw =
        some (RetryPolicy.calculateDelay cfg (job.attempts + 1) draw)) ∧
    (∀ (job : QueuedJob) (draw : ℚ), cfg.maxAttempts ≤ job.attempts →
      RetryPolicy.nextAttemptDelay cfg job draw = none) := by
  refine ⟨?_, ?_, ?_⟩
  · intro a
    simp [RetryPolicy.shouldRetry]
  · intro job draw h
    simp [RetryPolicy.nextAttemptDelay, RetryPolicy.shouldRetry, h]
  · intro job draw h
    simp [RetryPolicy.nextAttemptDelay, RetryPolicy.shouldRetry, Nat.not_lt.mpr h]

/-- C6 witness: the default config (3 attempts): a job with 1 attempt gets
a delay, a job with 3 attempts gets `None`. -/
theorem C6_should_retry_next_delay_witness :
    RetryPolicy.shouldRetry cfgDefault 2 = true ∧
    RetryPolicy.nextAttemptDelay cfgDefault (sampleJob 1) 0 =
      some (RetryPolicy.calculateDelay cfgDefault 2 0) ∧
    RetryPolicy.nextAttemptDelay cfgDefault (sampleJob 3) 0 = none := by
  have h := C6_should_retry_next_delay cfgDefault (by decide)
  exact ⟨(h.1 2).mpr (by decide), h.2.1 (sampleJob 1) 0 (by decide),
    h.2.2 (sampleJob 3) 0 (by decide)⟩

/-- C7. `RetryPolicy::new` rejects each invalid configuration
independently (`max_attempts = 0`, `base_delay = 0`,
`max_delay ≤ base_delay`, `backoff_multiplier ≤ 1.0`) with an
`InvalidConfig` error value, and succeeds exactly when all four numeric
constraints hold. The Lean embedding is a total function, matching the
source, which never panics on any input. -/
theorem C7_retry_config_validation :
    (∀ cfg : RetryConfig, cfg.maxAttempts = 0 →
      ∃ msg, RetryPolicy.new cfg = Except.error (RetryError.invalidConfig msg)) ∧
    (∀ cfg : RetryConfig, cfg.baseDelayMs = 0 →
      ∃ msg, RetryPolicy.new cfg = Except.error (RetryError.invalidConfig msg)) ∧
    (∀ cfg : RetryConfig, cfg.maxDelayMs ≤ cfg.baseDelayMs →
      ∃ msg, RetryPolicy.new cfg = Except.error (RetryError.invalidConfig msg)) ∧
    (∀ cfg : RetryConfig, cfg.backoffMultiplier ≤ 1 →
      ∃ msg, RetryPolicy.new cfg = Except.error (RetryError.invalidConfig msg)) ∧
    (∀ cfg : RetryConfig, RetryPolicy.new cfg = Except.ok cfg ↔
      (0 < cfg.maxAttempts ∧ 0 < cfg.baseDelayMs ∧
        cfg.baseDelayMs < cfg.maxDelayMs ∧ 1 < cfg.backoffMultiplier)) := by
  refine ⟨?_, ?_, ?_, ?_, ?_⟩
  · intro cfg h
    simp only [RetryPolicy.new, RetryPolicy.validateConfig]
    split_ifs <;> exact ⟨_, rfl⟩
  · intro cfg h
    simp only [RetryPolicy.new, RetryPolicy.validateConfig]
    split_ifs <;> exact ⟨_, rfl⟩
  · intro cfg h
    simp only [RetryPolicy.new, RetryPolicy.validateConfig]
    split_ifs <;> exact ⟨_, rfl⟩
  · intro cfg h
    simp only [RetryPolicy.new, RetryPolicy.validateConfig]
    split_ifs <;> exact ⟨_, rfl⟩
  · intro cfg
    simp only [RetryPolicy.new, RetryPolicy.validateConfig]
    split_ifs with h1 h2 h3 h4
    · simp [h1]
    · simp [h2]
    · exact iff_of_false (by simp) (fun hc => absurd hc.2.2.1 (by omega))
    · exact iff_of_false (by simp) (fun hc => absurd hc.2.2.2 (not_lt.mpr h4))
    · exact iff_of_true rfl
        ⟨Nat.pos_of_ne_zero h1, Nat.pos_of_ne_zero h2, by omega, not_le.mp h4⟩

/-- C7 witness: each single violation of the default config is rejected,
and the default config itself is accepted. -/
theorem C7_retry_config_validation_witness :
    (∃ msg, RetryPolicy.new { cfgDefault with maxAttempts := 0 } =
      Except.error (RetryError.invalidConfig msg)) ∧
    (∃ msg, RetryPolicy.new { cfgDefault with baseDelayMs := 0 } =
      Except.error (RetryError.invalidConfig msg)) ∧
    (∃ msg, RetryPolicy.new { cfgDefault with maxDelayMs := 500 } =
      Except.error (RetryError.invalidConfig msg)) ∧
    (∃ msg, RetryPolicy.new { cfgDefault with backoffMultiplier := 1 } =
      Except.error (RetryError.invalidConfig msg)) ∧
    RetryPolicy.new cfgDefault = Except.ok cfgDefault := by
  have h := C7_retry_config_validation
  exact ⟨h.1 _ rfl, h.2.1 _ rfl, h.2.2.1 _ (by decide), h.2.2.2.1 _ (by decide),
    (h.2.2.2.2 cfgDefault).mpr ⟨by decide, by decide, by decide, by decide⟩⟩

/-- C8 (amended): with jitter enabled, for every attempt number and every
draw in the legal range `[0, computed_delay]`, provided the clamp floor
`max(base_delay/4, 1ms)` does not exceed the computed delay, the final
delay is at least 1 ms (never instantaneous), at least the truncated
clamp floor, and at most the computed delay. (The source clamps the draw
below by `max(base_delay * 0.25, 1.0)` and then truncates to whole ms, so
the result can fall below the untruncated `base_delay/4` — see the
counterexample.) -/
theorem C8_jitter_bounds (cfg : RetryConfig) (n : Nat) (draw : ℚ)
    (hjit : cfg.jitter = true) (_h0 : 0 ≤ draw)
    (hdraw : draw ≤ (RetryPolicy.calculateDelayCore cfg n : ℚ))
    (hfloor : max ((cfg.baseDelayMs : ℚ) * (1 / 4)) 1 ≤
      (RetryPolicy.calculateDelayCore cfg n : ℚ)) :
    1 ≤ RetryPolicy.calculateDelay cfg n draw ∧
    Nat.floor (max ((cfg.baseDelayMs : ℚ) * (1 / 4)) 1) ≤
      RetryPolicy.calculateDelay cfg n draw ∧
    RetryPolicy.calculateDelay cfg n draw ≤
      RetryPolicy.calculateDelayCore cfg n := by
  have hcd : RetryPolicy.calculateDelay cfg n draw =
      RetryPolicy.addJitter cfg draw := by
    simp [RetryPolicy.calculateDelay, hjit]
  have haj : RetryPolicy.addJitter cfg draw =
      Nat.floor (max draw (max ((cfg.baseDelayMs : ℚ) * (1 / 4)) 1)) := by
    simp only [RetryPolicy.addJitter]
    rw [Int.floor_toNat]
  rw [hcd, haj]
  have hM1 : (1 : ℚ) ≤ max ((cfg.baseDelayMs : ℚ) * (1 / 4)) 1 := le_max_right _ _
  refine ⟨?_, ?_, ?_⟩
  · exact Nat.le_floor (by exact_mod_cast le_trans hM1 (le_max_right draw _))
  · exact Nat.floor_mono (le_max_right draw _)
  · have hmax : max draw (max ((cfg.baseDelayMs : ℚ) * (1 / 4)) 1) ≤
        ((RetryPolicy.calculateDelayCore cfg n : ℕ) : ℚ) := max_le hdraw hfloor
    have h2 := Nat.floor_mono hmax
    simpa using h2

/-- C8 witness: the default config at attempt 1 with draw 0: the delay is
clamped into `[250, 1000]` ms and in particular is nonzero. -/
theorem C8_jitter_bounds_witness :
    1 ≤ RetryPolicy.calculateDelay cfgDefault 1 0 ∧
    Nat.floor (max ((cfgDefault.baseDelayMs : ℚ) * (1 / 4)) 1) ≤
      RetryPolicy.calculateDelay cfgDefault 1 0 ∧
    RetryPolicy.calculateDelay cfgDefault 1 0 ≤
      RetryPolicy.calculateDelayCore cfgDefault 1 := by
  refine C8_jitter_bounds cfgDefault 1 0 rfl (le_refl 0) ?_ ?_
  · norm_num [RetryPolicy.calculateDelayCore, RetryPolicy.u32AsI32, cfgDefault]
  · norm_num [RetryPolicy.calculateDelayCore, RetryPolicy.u32AsI32, cfgDefault]

/-- C8 counterexample: `base_delay = 6ms` (so `min_floor = 1.5ms`),
attempt 1, draw 0 — a legal draw since the computed delay is 6ms ≥ 0.
The returned delay is 1 ms, strictly below the claimed interval lower
endpoint `max(min_floor, 0) = 1.5 ms`, because the source truncates
`max(0, 1.5) = 1.5` to a whole number of milliseconds. -/
theorem C8_jitter_floor_counterexample :
    RetryPolicy.calculateDelay cfg6 1 0 = 1 ∧
    ((RetryPolicy.calculateDelay cfg6 1 0 : ℚ) <
      max ((cfg6.baseDelayMs : ℚ) * (1 / 4)) 0) ∧
    ((0 : ℚ) ≤ (RetryPolicy.calculateDelayCore cfg6 1 : ℚ)) := by
  have h1 : RetryPolicy.calculateDelay cfg6 1 0 = 1 := by
    norm_num [RetryPolicy.calculateDelay, RetryPolicy.calculateDelayCore,
      RetryPolicy.addJitter, RetryPolicy.u32AsI32, cfg6]
  refine ⟨h1, ?_, ?_⟩
  · rw [h1]
    norm_num [cfg6]
  · positivity

/-! ## Claim theorems: error taxonomy -/

theorem queueUserMessage_eq_shape (e : QueueError) :
    e.userMessage = queueMessageOfShape e.shape := by
  cases e <;> rfl

theorem workerUserMessage_eq_shape (e : WorkerError) :
    e.userMessage = workerMessageOfShape e.shape := by
  cases e <;> rfl

/-- C9. `user_message` is a function of the error variant alone (plus the
`attempts` count for `JobProcessingFailed`): two errors of the same
variant that differ in any wrapped reason text, job id, timeout, or
validation detail produce the identical user-facing string, so internal
error text can never leak into it. -/
theorem C9_user_message_depends_only_on_variant :
    (∀ e1 e2 : QueueError, e1.shape = e2.shape →
      e1.userMessage = e2.userMessage) ∧
    (∀ e1 e2 : WorkerError, e1.shape = e2.shape →
      e1.userMessage = e2.userMessage) := by
  constructor
  · intro e1 e2 h
    rw [queueUserMessage_eq_shape, queueUserMessage_eq_shape, h]
  · intro e1 e2 h
    rw [workerUserMessage_eq_shape, workerUserMessage_eq_shape, h]

/-- C9 witness: a connection error carrying an internal hostname and a
processing failure carrying raw backend text produce the same
user messages as ones carrying unrelated text. -/
theorem C9_user_message_witness :
    QueueError.userMessage
        (QueueError.connectionFailed ("redis://prod-host:6379 refused")) =
      QueueError.userMessage (QueueError.connectionFailed ("x")) ∧
    WorkerError.userMessage
        (WorkerError.jobProcessingFailed ("job-1") 2 ("HTTP 500 from backend")) =
      WorkerError.userMessage (WorkerError.jobProcessingFailed ("j2") 2 ("y")) := by
  exact ⟨C9_user_message_depends_only_on_variant.1 _ _ rfl,
    C9_user_message_depends_only_on_variant.2 _ _ rfl⟩
